import Mathlib

/-
Shallow embedding of the open-notebook job queue and command-handler pipeline.

Sources embedded here:
  * src/open_notebook/database/job_queue.py   (SupabaseJobQueue)
  * src/api/command_service.py                (CommandService.cancel_command_job)
  * src/commands/embedding_commands.py
  * src/commands/source_commands.py
  * src/commands/podcast_commands.py
  * src/open_notebook/domain/base.py          (ObjectModel.save / get)
  * src/open_notebook/domain/notebook.py      (Source, Note, SourceInsight)

Modelling conventions:
  * the Supabase tables are lists of row structures; an insert appends, an
    update maps over matching rows (Python exceptions do not roll state back,
    so every stateful operation returns the post-state even on failure);
  * uuid4 generation is modelled as a fresh-supply counter `uuidGen`; job ids
    are opaque, so Nat stands for the uuid string;
  * wall-clock time is a Nat counter `now` (datetime.now() is monotone);
  * floats (progress, embedding coordinates) are modelled as Rat;
  * json.dumps / json.loads for the opaque job payloads are parameters
    `dumps : A -> String` and `loads : String -> Option A` of the operations
    that use them (the Python json module guarantees loads (dumps x) = x and
    dumps x is a non-empty string; theorems take those facts as hypotheses
    about the payload actually stored);
  * store write failures are injected through a Boolean `saveFails` /
    `insertOk` flag, mirroring the fact that every repo_* call can raise.
-/

namespace ON

/-! ## Job queue (src/open_notebook/database/job_queue.py) -/

/-- `JobStatus` enum of job_queue.py. -/
inductive JobStatus where
  | pending
  | in_progress
  | completed
  | failed
  | cancelled
deriving DecidableEq, Repr

/-- `JobStatus.value`: the string stored in the `status` column. -/
def JobStatus.value : JobStatus → String
  | .pending => "pending"
  | .in_progress => "in_progress"
  | .completed => "completed"
  | .failed => "failed"
  | .cancelled => "cancelled"

/-- `JobStatus(s)`: Python enum lookup by value; `none` models the ValueError
raised on an unknown status string. -/
def parseJobStatus (s : String) : Option JobStatus :=
  if s = "pending" then some .pending
  else if s = "in_progress" then some .in_progress
  else if s = "completed" then some .completed
  else if s = "failed" then some .failed
  else if s = "cancelled" then some .cancelled
  else none

/-- A row of the `jobs` table (logical schema of §6 / `job_data` in
`submit_job`).  `result` and `error_message` are nullable columns; `args`
and `result` hold the json.dumps serialisation. -/
structure JobRow where
  id : Nat
  app_name : String
  command_name : String
  args : String
  status : String
  progress : Rat
  result : Option String
  error_message : Option String
  created_at : Nat
  updated_at : Nat
deriving DecidableEq, Repr

/-- The state behind `SupabaseJobQueue`: the `jobs` table plus the clock and
the uuid fresh supply. -/
structure QueueState where
  table : List JobRow
  now : Nat
  uuidGen : Nat
deriving DecidableEq, Repr

/-- The `JobResult` object returned by `get_job_status` (status, decoded
result payload, error_message, progress). -/
structure JobResult (A : Type) where
  status : JobStatus
  result : Option A
  error_message : Option String
  progress : Rat
deriving DecidableEq, Repr

/-- `SupabaseJobQueue.submit_job`: generate a fresh id, insert a PENDING row
with progress 0; on insert failure log and re-raise (`Except.error`), in
which case no row is written. -/
def submit_job {A : Type} (dumps : A → String) (insertOk : Bool)
    (app_name command_name : String) (args : A) (s : QueueState) :
    Except String (Nat × QueueState) :=
  let job_id := s.uuidGen
  let row : JobRow :=
    { id := job_id
      app_name := app_name
      command_name := command_name
      args := dumps args
      status := JobStatus.pending.value
      progress := 0
      result := none
      error_message := none
      created_at := s.now
      updated_at := s.now }
  if insertOk then
    Except.ok (job_id, { table := s.table ++ [row], now := s.now + 1, uuidGen := s.uuidGen + 1 })
  else
    Except.error "Failed to submit job"

/-- `SupabaseJobQueue.get_job_status`: select by id; absent row yields a
FAILED-shaped result carrying "Job not found"; a decode failure is caught by
the outer except and also yields a FAILED-shaped result. -/
def get_job_status {A : Type} (loads : String → Option A) (job_id : Nat)
    (s : QueueState) : JobResult A :=
  match s.table.filter (fun r => r.id == job_id) with
  | [] => { status := .failed, result := none, error_message := some "Job not found", progress := 0 }
  | job :: _ =>
    match parseJobStatus job.status with
    | none =>
      { status := .failed, result := none, error_message := some "Failed to get job status", progress := 0 }
    | some st =>
      match job.result with
      | none => { status := st, result := none, error_message := job.error_message, progress := job.progress }
      | some str =>
        if str = "" then
          { status := st, result := none, error_message := job.error_message, progress := job.progress }
        else
          match loads str with
          | none =>
            { status := .failed, result := none, error_message := some "Failed to get job status", progress := 0 }
          | some v =>
            { status := st, result := some v, error_message := job.error_message, progress := job.progress }

/-- The partial `update_data` write of `update_job_status` applied to one
matching row: status and updated_at always, result / error_message /
progress only when non-null. -/
def applyUpdate {A : Type} (dumps : A → String) (status : JobStatus)
    (result : Option A) (error_message : Option String) (progress : Option Rat)
    (now : Nat) (r : JobRow) : JobRow :=
  { r with
    status := status.value
    updated_at := now
    result := match result with
      | some v => some (dumps v)
      | none => r.result
    error_message := match error_message with
      | some m => some m
      | none => r.error_message
    progress := match progress with
      | some p => p
      | none => r.progress }

/-- `SupabaseJobQueue.update_job_status`: unconditional partial update of
every row matching the id (no state-machine check, exceptions swallowed). -/
def update_job_status {A : Type} (dumps : A → String) (job_id : Nat)
    (status : JobStatus) (result : Option A) (error_message : Option String)
    (progress : Option Rat) (s : QueueState) : QueueState :=
  { s with
    table := s.table.map (fun r =>
      if r.id == job_id then applyUpdate dumps status result error_message progress s.now r else r)
    now := s.now + 1 }

/-- Python truthiness of an optional string filter (`if app_name:`). -/
def optStrTruthy : Option String → Bool
  | none => false
  | some s => !(s == "")

/-- The conjunctive equality filters of `list_jobs` (an empty-string filter
is falsy in Python and therefore not applied). -/
def matchesFilters (app_name command_name : Option String)
    (status : Option JobStatus) (r : JobRow) : Bool :=
  (match app_name with
   | some a => if a == "" then true else r.app_name == a
   | none => true)
  && (match command_name with
      | some c => if c == "" then true else r.command_name == c
      | none => true)
  && (match status with
      | some st => r.status == st.value
      | none => true)

/-- Insertion step of the `order("created_at", desc=True)` sort. -/
def insertByCreatedDesc (r : JobRow) : List JobRow → List JobRow
  | [] => [r]
  | x :: xs => if r.created_at ≤ x.created_at then x :: insertByCreatedDesc r xs else r :: x :: xs

/-- `order("created_at", desc=True)`: sort rows by creation time descending. -/
def sortByCreatedDesc : List JobRow → List JobRow
  | [] => []
  | x :: xs => insertByCreatedDesc x (sortByCreatedDesc xs)

/-- `SupabaseJobQueue.list_jobs`: conjunctive equality filters, order by
created_at descending, truncate to `limit`. -/
def list_jobs (app_name command_name : Option String) (status : Option JobStatus)
    (limit : Nat) (s : QueueState) : List JobRow :=
  (sortByCreatedDesc (s.table.filter (matchesFilters app_name command_name status))).take limit

/-- The default `limit: int = 50` of `list_jobs`. -/
def defaultJobLimit : Nat := 50

/-- `list_jobs` called without an explicit limit. -/
def list_jobs_default (app_name command_name : Option String)
    (status : Option JobStatus) (s : QueueState) : List JobRow :=
  list_jobs app_name command_name status defaultJobLimit s

/-- `CommandService.cancel_command_job` (src/api/command_service.py):
unconditionally writes status CANCELLED with the fixed error message and
returns True; `update_job_status` swallows its own exceptions, so the
except branch of `cancel_command_job` is unreachable. -/
def cancel_command_job (job_id : Nat) (s : QueueState) : Bool × QueueState :=
  (true,
   update_job_status (fun _ : Unit => "") job_id .cancelled none
     (some "Job cancelled by user") none s)

/-! ## Domain entities and their persistence
(src/open_notebook/domain/base.py, src/open_notebook/domain/notebook.py) -/

/-- A row of the `source` table (class Source). -/
structure SourceRec where
  id : Option Nat
  notebook_id : Nat
  title : Option String
  full_text : Option String
  processing_status : Option String
deriving DecidableEq, Repr

/-- A row of the `note` table (class Note); the `embedding` column is
written only by the auto-embed hook of `ObjectModel.save`. -/
structure NoteRec where
  id : Option Nat
  notebook_id : Nat
  title : Option String
  note_type : Option String
  content : Option String
  embedding : Option (List Rat)
deriving DecidableEq, Repr

/-- A row of the `source_insight` table (class SourceInsight). -/
structure InsightRec where
  id : Option Nat
  source_id : Nat
  insight_type : String
  content : String
deriving DecidableEq, Repr

/-- A row of the `source_embedding` table (class SourceEmbedding). -/
structure SourceEmbeddingRec where
  id : Option Nat
  source_id : Nat
  content : String
  embedding : List Rat
deriving DecidableEq, Repr

/-- Modelled from the spec: a row of the podcast episode table.
`open_notebook/podcasts/models.py` (PodcastEpisode) is not under src/; per
§4.2 the episode record carries name, briefing, content, a status that moves
through starting → generating → completed|failed, and on success the audio
file path, transcript and outline. -/
structure EpisodeRec where
  id : Option Nat
  name : String
  briefing : String
  content : String
  status : String
  audio_file : Option String
  transcript : Option String
  outline : Option String
deriving DecidableEq, Repr

/-- The backing database: entity tables plus the fresh-id supply used by
`repo_create`.  `transformations` holds the ids of the transformation rows
(the Transformation entity class itself is not under src/; only its generic
`ObjectModel.get` behaviour is used, see `transformation_get`). -/
structure DB where
  sources : List SourceRec
  notes : List NoteRec
  insights : List InsightRec
  source_embeddings : List SourceEmbeddingRec
  episodes : List EpisodeRec
  transformations : List Nat
  nextId : Nat
deriving DecidableEq, Repr

/-- The external collaborators of the handlers: the resolved embedding
capability (`model_manager.get_embedding_model`, `aembed`), the store
write-failure injection, and the pure chunking utility `split_text`. -/
structure Env where
  embeddingModel : Option (List String → List (List Rat))
  saveFails : Bool
  split_text : String → List String

/-- `ObjectModel.get` for Source: `if not id` raises InvalidInputError
(0 is falsy), an absent row raises NotFoundError; `get` never returns None. -/
def source_get (sid : Nat) (db : DB) : Except String SourceRec :=
  if sid == 0 then Except.error "InvalidInputError: ID cannot be empty"
  else
    match db.sources.find? (fun r => r.id == some sid) with
    | some r => Except.ok r
    | none => Except.error ("NotFoundError: Object with id " ++ toString sid ++ " not found")

/-- `ObjectModel.get` for Note. -/
def note_get (nid : Nat) (db : DB) : Except String NoteRec :=
  if nid == 0 then Except.error "InvalidInputError: ID cannot be empty"
  else
    match db.notes.find? (fun r => r.id == some nid) with
    | some r => Except.ok r
    | none => Except.error ("NotFoundError: Object with id " ++ toString nid ++ " not found")

/-- `ObjectModel.get` for SourceInsight. -/
def insight_get (iid : Nat) (db : DB) : Except String InsightRec :=
  if iid == 0 then Except.error "InvalidInputError: ID cannot be empty"
  else
    match db.insights.find? (fun r => r.id == some iid) with
    | some r => Except.ok r
    | none => Except.error ("NotFoundError: Object with id " ++ toString iid ++ " not found")

/-- Modelled from the spec: `Transformation.get`.  The Transformation entity
class (`open_notebook/domain/transformation.py`) is not under src/; the spec
(§4.2) says process_source "resolves each transformation id" and fails if
any is missing, which is the generic `ObjectModel.get` behaviour of
domain/base.py applied to the transformation table. -/
def transformation_get (tid : Nat) (db : DB) : Except String Unit :=
  if tid == 0 then Except.error "InvalidInputError: ID cannot be empty"
  else if db.transformations.contains tid then Except.ok ()
  else Except.error ("NotFoundError: Object with id " ++ toString tid ++ " not found")

/-- `Note.needs_embedding` (unconditionally True). -/
def note_needs_embedding (_n : NoteRec) : Bool := true

/-- `Note.get_embedding_content` (returns the content). -/
def note_get_embedding_content (n : NoteRec) : Option String := n.content

/-- ASCII whitespace, for the `str.strip()` model. -/
def isSpaceChar (c : Char) : Bool :=
  c == ' ' || c == '\t' || c == '\n' || c == '\r'

/-- Python's `str.strip()`: drop leading and trailing whitespace. -/
def pyStrip (s : String) : String :=
  String.mk (((s.data.dropWhile isSpaceChar).reverse.dropWhile isSpaceChar).reverse)

/-- Note's `content_must_not_be_empty` validator: a non-None content that is
blank after strip raises InvalidInputError. -/
def noteContentInvalid (n : NoteRec) : Bool :=
  match n.content with
  | some c => pyStrip c == ""
  | none => false

/-- The merge an `update ... eq(id)` performs on a note row:
`_prepare_save_data` drops None fields, so None fields keep the old column
value; the embedding column is written only when the hook computed one. -/
def updateNoteRow (old n : NoteRec) (embOpt : Option (List Rat)) : NoteRec :=
  { old with
    notebook_id := n.notebook_id
    title := match n.title with | some t => some t | none => old.title
    note_type := match n.note_type with | some t => some t | none => old.note_type
    content := match n.content with | some c => some c | none => old.content
    embedding := match embOpt with | some v => some v | none => old.embedding }

/-- `ObjectModel.save` for Note: validate, run the auto-embed hook
(Note.needs_embedding is True; a missing embedding model is a warning only,
an embedding call returning no vector propagates as a save failure), then
insert (fresh id) or partial-update the row.  Returns the saved object with
the repo result copied back. -/
def note_save (env : Env) (n : NoteRec) (db : DB) : Except String NoteRec × DB :=
  if noteContentInvalid n then
    (Except.error "InvalidInputError: Note content cannot be empty", db)
  else
    let embRes : Except String (Option (List Rat)) :=
      if note_needs_embedding n then
        match note_get_embedding_content n with
        | some c =>
          if c == "" then Except.ok none
          else
            match env.embeddingModel with
            | none => Except.ok none
            | some aembed =>
              match (aembed [c]).head? with
              | none => Except.error "DatabaseOperationError: embedding call failed"
              | some v => Except.ok (some v)
        | none => Except.ok none
      else Except.ok none
    match embRes with
    | Except.error e => (Except.error e, db)
    | Except.ok embOpt =>
      if env.saveFails then (Except.error "DatabaseOperationError: write failed", db)
      else
        match n.id with
        | none =>
          let saved : NoteRec := { n with id := some db.nextId, embedding := embOpt }
          (Except.ok saved, { db with notes := db.notes ++ [saved], nextId := db.nextId + 1 })
        | some i =>
          match db.notes.find? (fun r => r.id == some i) with
          | none => (Except.ok n, db)
          | some old =>
            let saved := updateNoteRow old n embOpt
            (Except.ok saved,
             { db with notes := db.notes.map (fun r => if r.id == some i then updateNoteRow r n embOpt else r) })

/-- The merge an update performs on a source row (None fields keep the old
column value). -/
def updateSourceRow (old src : SourceRec) : SourceRec :=
  { old with
    notebook_id := src.notebook_id
    title := match src.title with | some t => some t | none => old.title
    full_text := match src.full_text with | some t => some t | none => old.full_text
    processing_status := match src.processing_status with | some t => some t | none => old.processing_status }

/-- `ObjectModel.save` for Source: Source does not override
`needs_embedding`, so no auto-embed hook runs; insert or partial-update. -/
def source_save (env : Env) (src : SourceRec) (db : DB) : Except String SourceRec × DB :=
  if env.saveFails then (Except.error "DatabaseOperationError: write failed", db)
  else
    match src.id with
    | none =>
      let saved : SourceRec := { src with id := some db.nextId }
      (Except.ok saved, { db with sources := db.sources ++ [saved], nextId := db.nextId + 1 })
    | some i =>
      match db.sources.find? (fun r => r.id == some i) with
      | none => (Except.ok src, db)
      | some old =>
        (Except.ok (updateSourceRow old src),
         { db with sources := db.sources.map (fun r => if r.id == some i then updateSourceRow r src else r) })

/-- `ObjectModel.save` for SourceInsight: SourceInsight does not override
`needs_embedding` (the base default is False), so despite the
"# Auto-embeds" comment in embedding_commands.py the save is a plain write. -/
def insight_save (env : Env) (ins : InsightRec) (db : DB) : Except String InsightRec × DB :=
  if env.saveFails then (Except.error "DatabaseOperationError: write failed", db)
  else
    match ins.id with
    | none =>
      let saved : InsightRec := { ins with id := some db.nextId }
      (Except.ok saved, { db with insights := db.insights ++ [saved], nextId := db.nextId + 1 })
    | some i =>
      (Except.ok ins, { db with insights := db.insights.map (fun r => if r.id == some i then ins else r) })

/-- Modelled from the spec: `PodcastEpisode.save`; the class is not under
src/, and §4.2 only requires a persisted episode record whose status is
updated through the pipeline, i.e. the generic `ObjectModel.save` write. -/
def episode_save (env : Env) (ep : EpisodeRec) (db : DB) : Except String EpisodeRec × DB :=
  if env.saveFails then (Except.error "DatabaseOperationError: write failed", db)
  else
    match ep.id with
    | none =>
      let saved : EpisodeRec := { ep with id := some db.nextId }
      (Except.ok saved, { db with episodes := db.episodes ++ [saved], nextId := db.nextId + 1 })
    | some i =>
      (Except.ok ep, { db with episodes := db.episodes.map (fun r => if r.id == some i then ep else r) })

/-- The loop of `Source.vectorize` that writes one `source_embedding` row per
(chunk, embedding) pair via `repo_create`. -/
def createEmbeddingRows (env : Env) (sid : Nat) (pairs : List (String × List Rat))
    (db : DB) : Except String Unit × DB :=
  match pairs with
  | [] => (Except.ok (), db)
  | (c, e) :: rest =>
    if env.saveFails then (Except.error "RuntimeError: Failed to create record", db)
    else
      createEmbeddingRows env sid rest
        { db with
          source_embeddings := db.source_embeddings ++
            [{ id := some db.nextId, source_id := sid, content := c, embedding := e }]
          nextId := db.nextId + 1 }

/-- `Source.vectorize`: set processing_status in_progress and save (outside
the try, so that save failure raises directly); then inside the try: empty
full_text or a missing embedding model raises ValueError, otherwise chunk,
embed, create one source_embedding row per chunk and save status completed.
The except branch saves status failed and re-raises as
DatabaseOperationError (a failure of that save itself propagates instead). -/
def source_vectorize (env : Env) (src : SourceRec) (db : DB) :
    Except String SourceRec × DB :=
  match source_save env { src with processing_status := some "in_progress" } db with
  | (Except.error e, db1) => (Except.error e, db1)
  | (Except.ok src2, db1) =>
    let inner : Except String SourceRec × DB :=
      if optStrTruthy src2.full_text then
        match env.embeddingModel with
        | none => (Except.error "ValueError: Embedding model not configured", db1)
        | some aembed =>
          match src2.full_text, src2.id with
          | some text, some sid =>
            let chunks := env.split_text text
            let embeddings := aembed chunks
            match createEmbeddingRows env sid (chunks.zip embeddings) db1 with
            | (Except.error e, db2) => (Except.error e, db2)
            | (Except.ok _, db2) =>
              source_save env { src2 with processing_status := some "completed" } db2
          | _, _ => (Except.error "ValidationError: source_id missing", db1)
      else
        (Except.error "ValueError: Source has no text to vectorize", db1)
    match inner with
    | (Except.ok s2, db2) => (Except.ok s2, db2)
    | (Except.error e, db2) =>
      match source_save env { src2 with processing_status := some "failed" } db2 with
      | (Except.error e2, db3) => (Except.error e2, db3)
      | (Except.ok _, db3) => (Except.error ("DatabaseOperationError: " ++ e), db3)

/-! ## Command handlers (src/commands/) -/

/-- The result dict of `embed_single_item_command`. -/
structure EmbedSingleResult where
  success : Bool
  item_type : String
  item_id : Nat
  processing_time : Nat
  error_message : Option String
deriving DecidableEq, Repr

/-- `embed_single_item_command` (src/commands/embedding_commands.py):
dispatch on item_type to vectorize / save, catch everything and return a
structured payload.  The `if not item` checks of the Python code are dead
(`ObjectModel.get` raises instead of returning None); wall-clock
processing_time is abstracted to 0. -/
def embed_single_item_command (env : Env) (item_type : String) (item_id : Nat)
    (db : DB) : EmbedSingleResult × DB :=
  let work : Except String Unit × DB :=
    if item_type == "source" then
      match source_get item_id db with
      | Except.error e => (Except.error e, db)
      | Except.ok src =>
        match source_vectorize env src db with
        | (Except.error e, db1) => (Except.error e, db1)
        | (Except.ok _, db1) => (Except.ok (), db1)
    else if item_type == "note" then
      match note_get item_id db with
      | Except.error e => (Except.error e, db)
      | Except.ok n =>
        match note_save env n db with
        | (Except.error e, db1) => (Except.error e, db1)
        | (Except.ok _, db1) => (Except.ok (), db1)
    else if item_type == "insight" then
      match insight_get item_id db with
      | Except.error e => (Except.error e, db)
      | Except.ok ins =>
        match insight_save env ins db with
        | (Except.error e, db1) => (Except.error e, db1)
        | (Except.ok _, db1) => (Except.ok (), db1)
    else
      (Except.error ("ValueError: Unknown item type: " ++ item_type), db)
  match work with
  | (Except.ok _, db1) =>
    ({ success := true, item_type := item_type, item_id := item_id,
       processing_time := 0, error_message := none }, db1)
  | (Except.error e, db1) =>
    ({ success := false, item_type := item_type, item_id := item_id,
       processing_time := 0, error_message := some e }, db1)

/-- The category id lists collected by `collect_items_for_rebuild`. -/
structure RebuildItems where
  sources : List Nat
  notes : List Nat
  insights : List Nat
deriving DecidableEq, Repr

/-- `collect_items_for_rebuild`: per include-flag, distinct queries for
source ids with non-null full_text, note ids with non-null content, and all
insight ids.  The `mode` argument is accepted but never read. -/
def collect_items_for_rebuild (mode : String)
    (include_sources include_notes include_insights : Bool) (db : DB) :
    RebuildItems :=
  { sources :=
      if include_sources then
        (db.sources.filter (fun r => r.full_text.isSome)).filterMap (fun r => r.id)
      else []
    notes :=
      if include_notes then
        (db.notes.filter (fun r => r.content.isSome)).filterMap (fun r => r.id)
      else []
    insights :=
      if include_insights then db.insights.filterMap (fun r => r.id)
      else [] }

/-- The result dict of `rebuild_embeddings_command`. -/
structure RebuildResult where
  success : Bool
  total_items : Nat
  processed_items : Nat
  failed_items : Nat
  processing_time : Nat
  error_message : Option String
deriving DecidableEq, Repr

/-- One iteration of the source loop of `rebuild_embeddings_command`:
a load failure or a vectorize failure increments failed, success increments
processed; the accumulator threads (processed, failed) and the database. -/
def rebuildSourceStep (env : Env) (acc : (Nat × Nat) × DB) (sid : Nat) :
    (Nat × Nat) × DB :=
  match source_get sid acc.2 with
  | Except.error _ => ((acc.1.1, acc.1.2 + 1), acc.2)
  | Except.ok src =>
    match source_vectorize env src acc.2 with
    | (Except.ok _, db1) => ((acc.1.1 + 1, acc.1.2), db1)
    | (Except.error _, db1) => ((acc.1.1, acc.1.2 + 1), db1)

/-- One iteration of the note loop of `rebuild_embeddings_command`. -/
def rebuildNoteStep (env : Env) (acc : (Nat × Nat) × DB) (nid : Nat) :
    (Nat × Nat) × DB :=
  match note_get nid acc.2 with
  | Except.error _ => ((acc.1.1, acc.1.2 + 1), acc.2)
  | Except.ok n =>
    match note_save env n acc.2 with
    | (Except.ok _, db1) => ((acc.1.1 + 1, acc.1.2), db1)
    | (Except.error _, db1) => ((acc.1.1, acc.1.2 + 1), db1)

/-- One iteration of the insight loop of `rebuild_embeddings_command`. -/
def rebuildInsightStep (env : Env) (acc : (Nat × Nat) × DB) (iid : Nat) :
    (Nat × Nat) × DB :=
  match insight_get iid acc.2 with
  | Except.error _ => ((acc.1.1, acc.1.2 + 1), acc.2)
  | Except.ok ins =>
    match insight_save env ins acc.2 with
    | (Except.ok _, db1) => ((acc.1.1 + 1, acc.1.2), db1)
    | (Except.error _, db1) => ((acc.1.1, acc.1.2 + 1), db1)

/-- `rebuild_embeddings_command`: fail fast (success False payload) when no
embedding model is configured; otherwise collect items, short-circuit on an
empty batch, then run the three per-item loops where each failure is counted
and never aborts, and return the aggregate counts with success True. -/
def rebuild_embeddings_command (env : Env) (mode : String)
    (include_sources include_notes include_insights : Bool) (db : DB) :
    RebuildResult × DB :=
  match env.embeddingModel with
  | none =>
    ({ success := false, total_items := 0, processed_items := 0, failed_items := 0,
       processing_time := 0, error_message := some "No embedding model configured." }, db)
  | some _ =>
    let items := collect_items_for_rebuild mode include_sources include_notes include_insights db
    let total := items.sources.length + items.notes.length + items.insights.length
    if total == 0 then
      ({ success := true, total_items := 0, processed_items := 0, failed_items := 0,
         processing_time := 0, error_message := none }, db)
    else
      let acc1 := items.sources.foldl (rebuildSourceStep env) ((0, 0), db)
      let acc2 := items.notes.foldl (rebuildNoteStep env) acc1
      let acc3 := items.insights.foldl (rebuildInsightStep env) acc2
      ({ success := true, total_items := total, processed_items := acc3.1.1,
         failed_items := acc3.1.2, processing_time := 0, error_message := none }, acc3.2)

/-- The result dict of `process_source_command` (`source_id` is the
processed source's id on success and the input id on failure; the count
fields are only present on success, error_message only on failure). -/
structure ProcessSourceResult where
  success : Bool
  source_id : Option Nat
  embedded_chunks : Option Nat
  insights_created : Option Nat
  processing_time : Nat
  error_message : Option String
deriving DecidableEq, Repr

/-- The external `source_graph.ainvoke` workflow: given content_state,
notebook_ids, embed flag and source id it produces an enriched Source and
may mutate the store (insights, embeddings); failures are its own. -/
def GraphFn : Type :=
  String → List Nat → Bool → Nat → DB → Except String SourceRec × DB

/-- The transformation-resolution loop of `process_source_command`: stops at
the first id whose `Transformation.get` raises. -/
def resolveTransformations (db : DB) : List Nat → Except String Unit
  | [] => Except.ok ()
  | t :: ts =>
    match transformation_get t db with
    | Except.error e => Except.error e
    | Except.ok _ => resolveTransformations db ts

/-- The except branch of `process_source_command` once `source` is non-None:
persist processing_status failed (a failure of that save itself propagates)
and return the structured failure payload. -/
def processSourceFail (env : Env) (source : SourceRec) (source_id : Nat)
    (e : String) (db : DB) : Except String ProcessSourceResult × DB :=
  match source_save env { source with processing_status := some "failed" } db with
  | (Except.error e2, db1) => (Except.error e2, db1)
  | (Except.ok _, db1) =>
    (Except.ok { success := false, source_id := some source_id, embedded_chunks := none,
                 insights_created := none, processing_time := 0, error_message := some e }, db1)

/-- `process_source_command` (src/commands/source_commands.py): load the
source (a load failure is caught with `source` still None, so no status is
written), mark it in_progress, resolve every transformation id (the first
missing one aborts the handler into the except branch), run the external
workflow graph, mark the processed source completed and return the counts of
embedded chunks and insights. -/
def process_source_command (env : Env) (graph : GraphFn) (source_id : Nat)
    (content_state : String) (notebook_ids : List Nat)
    (transformations : List Nat) (embed : Bool) (db : DB) :
    Except String ProcessSourceResult × DB :=
  match source_get source_id db with
  | Except.error e =>
    (Except.ok { success := false, source_id := some source_id, embedded_chunks := none,
                 insights_created := none, processing_time := 0, error_message := some e }, db)
  | Except.ok source =>
    match source_save env { source with processing_status := some "in_progress" } db with
    | (Except.error e, db1) => processSourceFail env { source with processing_status := some "in_progress" } source_id e db1
    | (Except.ok source1, db1) =>
      match resolveTransformations db1 transformations with
      | Except.error e => processSourceFail env source1 source_id e db1
      | Except.ok _ =>
        match graph content_state notebook_ids embed source_id db1 with
        | (Except.error e, db2) => processSourceFail env source1 source_id e db2
        | (Except.ok processed, db2) =>
          match source_save env { processed with processing_status := some "completed" } db2 with
          | (Except.error e, db3) => processSourceFail env source1 source_id e db3
          | (Except.ok processed1, db3) =>
            let chunks :=
              if embed then
                (db3.source_embeddings.filter (fun r => some r.source_id == processed1.id)).length
              else 0
            let insights :=
              (db3.insights.filter (fun r => some r.source_id == processed1.id)).length
            (Except.ok { success := true, source_id := processed1.id,
                         embedded_chunks := some chunks, insights_created := some insights,
                         processing_time := 0, error_message := none }, db3)

/-- Modelled from the spec: an EpisodeProfile row (name, speaker_config,
default_briefing); `open_notebook/podcasts/models.py` is not under src/. -/
structure EpisodeProfileRec where
  name : String
  speaker_config : String
  default_briefing : String
deriving DecidableEq, Repr

/-- The result dict of `generate_podcast_command`. -/
structure PodcastResult where
  success : Bool
  episode_id : Option Nat
  audio_file_path : Option String
  processing_time : Nat
  error_message : Option String
deriving DecidableEq, Repr

/-- The external `create_podcast` capability: content, briefing and episode
name to (final_output_file_path, transcript, outline); failures are its own. -/
def PodcastFn : Type :=
  String → String → String → Except String (Option String × Option String × Option String)

/-- The except branch of `generate_podcast_command`: if an episode record
was created, persist status failed (a failure of that save itself
propagates), then return the structured failure payload. -/
def podcastFail (env : Env) (ep : Option EpisodeRec) (e : String) (db : DB) :
    Except String PodcastResult × DB :=
  let payload : PodcastResult :=
    { success := false, episode_id := none, audio_file_path := none,
      processing_time := 0, error_message := some e }
  match ep with
  | none => (Except.ok payload, db)
  | some epi =>
    match episode_save env { epi with status := "failed" } db with
    | (Except.error e2, db1) => (Except.error e2, db1)
    | (Except.ok _, db1) => (Except.ok payload, db1)

/-- `str(x)` applied to an `Optional[str]`: Python renders None as "None"
(`episode.audio_file = str(result.get("final_output_file_path"))`). -/
def pyStrOfOpt : Option String → String
  | some s => s
  | none => "None"

/-- `generate_podcast_command` (src/commands/podcast_commands.py): resolve
the episode and speaker profiles (missing ones abort with `episode` still
None, so nothing is persisted), create the episode record with status
starting, move it to generating, invoke the external `create_podcast`
capability, and persist status completed with audio path, transcript and
outline.  Profile resolution and the episode entity are modelled from the
spec (§4.2); `configure` and the output-directory mkdir are external
no-ops. -/
def generate_podcast_command (env : Env) (createPodcast : PodcastFn)
    (profiles : List EpisodeProfileRec) (speakers : List String)
    (episode_profile_name episode_name content : String)
    (briefing_suffix : Option String) (db : DB) :
    Except String PodcastResult × DB :=
  match profiles.find? (fun p => p.name == episode_profile_name) with
  | none =>
    podcastFail env none
      ("ValueError: Episode profile " ++ episode_profile_name ++ " not found") db
  | some prof =>
    match speakers.find? (fun s => s == prof.speaker_config) with
    | none =>
      podcastFail env none
        ("ValueError: Speaker profile " ++ prof.speaker_config ++ " not found") db
    | some _ =>
      let briefing := prof.default_briefing ++
        (match briefing_suffix with
         | some b => "\n\nAdditional instructions: " ++ b
         | none => "")
      let ep0 : EpisodeRec :=
        { id := none, name := episode_name, briefing := briefing, content := content,
          status := "starting", audio_file := none, transcript := none, outline := none }
      match episode_save env ep0 db with
      | (Except.error e, db1) => podcastFail env (some ep0) e db1
      | (Except.ok ep1, db1) =>
        match episode_save env { ep1 with status := "generating" } db1 with
        | (Except.error e, db2) => podcastFail env (some ep1) e db2
        | (Except.ok ep2, db2) =>
          match createPodcast content ep2.briefing episode_name with
          | Except.error e => podcastFail env (some ep2) e db2
          | Except.ok out =>
            let ep3 : EpisodeRec :=
              { ep2 with
                audio_file := some (pyStrOfOpt out.1)
                transcript := out.2.1
                outline := out.2.2
                status := "completed" }
            match episode_save env ep3 db2 with
            | (Except.error e, db3) => podcastFail env (some ep3) e db3
            | (Except.ok ep4, db3) =>
              (Except.ok { success := true, episode_id := ep4.id,
                           audio_file_path := ep4.audio_file,
                           processing_time := 0, error_message := none }, db3)

/-! ## Concrete example states used by counterexamples and witnesses -/

/-- A jobs table holding a single COMPLETED job (id 1). -/
def exRowCompleted : JobRow :=
  { id := 1, app_name := "open_notebook", command_name := "generate_podcast",
    args := "null", status := "completed", progress := 1, result := some "null",
    error_message := none, created_at := 0, updated_at := 3 }

/-- Queue state whose only job is already terminal (COMPLETED). -/
def exQueueCompleted : QueueState :=
  { table := [exRowCompleted], now := 5, uuidGen := 2 }

/-- A jobs table holding a single PENDING job (id 1). -/
def exRowPending : JobRow :=
  { id := 1, app_name := "open_notebook", command_name := "process_source",
    args := "null", status := "pending", progress := 0, result := none,
    error_message := none, created_at := 0, updated_at := 0 }

/-- Queue state whose only job is PENDING. -/
def exQueuePending : QueueState :=
  { table := [exRowPending], now := 5, uuidGen := 2 }

/-- The row `cancel_command_job 1` produces from `exRowPending` at clock 5. -/
def exRowPendingCancelled : JobRow :=
  { exRowPending with
    status := "cancelled"
    error_message := some "Job cancelled by user"
    updated_at := 5 }

/-- Older job of app "x". -/
def exRowA : JobRow :=
  { id := 2, app_name := "x", command_name := "a", args := "null",
    status := "pending", progress := 0, result := none, error_message := none,
    created_at := 1, updated_at := 1 }

/-- Newer job of app "x". -/
def exRowB : JobRow :=
  { id := 3, app_name := "x", command_name := "b", args := "null",
    status := "completed", progress := 1, result := none, error_message := none,
    created_at := 2, updated_at := 4 }

/-- A job of a different app "y". -/
def exRowY : JobRow :=
  { id := 4, app_name := "y", command_name := "c", args := "null",
    status := "pending", progress := 0, result := none, error_message := none,
    created_at := 3, updated_at := 3 }

/-- Queue with two "x" jobs and one "y" job, inserted oldest first. -/
def exQueueThree : QueueState :=
  { table := [exRowA, exRowB, exRowY], now := 6, uuidGen := 5 }

/-- The PENDING row `submit_job` writes (the `job_data` dict). -/
def submittedRow {A : Type} (dumps : A → String) (app_name command_name : String)
    (args : A) (s : QueueState) : JobRow :=
  { id := s.uuidGen, app_name := app_name, command_name := command_name,
    args := dumps args, status := JobStatus.pending.value, progress := 0,
    result := none, error_message := none, created_at := s.now,
    updated_at := s.now }

/-- The queue state after a successful `submit_job`. -/
def submittedState {A : Type} (dumps : A → String) (app_name command_name : String)
    (args : A) (s : QueueState) : QueueState :=
  { table := s.table ++ [submittedRow dumps app_name command_name args s]
    now := s.now + 1
    uuidGen := s.uuidGen + 1 }

/-- The row after `update_job_status id COMPLETED (result := R)` has rewritten
the freshly submitted row. -/
def completedRow {A : Type} (dumps : A → String) (app_name command_name : String)
    (args : A) (R : A) (s : QueueState) : JobRow :=
  { id := s.uuidGen, app_name := app_name, command_name := command_name,
    args := dumps args, status := "completed", progress := 0,
    result := some (dumps R), error_message := none, created_at := s.now,
    updated_at := s.now + 1 }

/-- A concrete serialiser standing in for json.dumps in witnesses: unary
encoding, always a non-empty string. -/
def unaryDumps (n : Nat) : String := String.mk (List.replicate (n + 1) 'a')

/-- The matching deserialiser standing in for json.loads in witnesses. -/
def unaryLoads (s : String) : Option Nat :=
  match s.data with
  | [] => none
  | _ :: rest => some rest.length

/-- An empty queue state. -/
def exEmptyQueue : QueueState := { table := [], now := 0, uuidGen := 0 }

/-- The state `submit_job unaryDumps true "app" "cmd" 7 exEmptyQueue`
produces. -/
def exAfterSubmit : QueueState :=
  { table := [{ id := 0, app_name := "app", command_name := "cmd",
                args := unaryDumps 7, status := "pending", progress := 0,
                result := none, error_message := none, created_at := 0,
                updated_at := 0 }]
    now := 1
    uuidGen := 1 }

/-- The state after additionally running
`update_job_status unaryDumps 0 .completed (some 7) none none` on
`exAfterSubmit`. -/
def exAfterUpdate : QueueState :=
  { table := [{ id := 0, app_name := "app", command_name := "cmd",
                args := unaryDumps 7, status := "completed", progress := 0,
                result := some (unaryDumps 7), error_message := none,
                created_at := 0, updated_at := 1 }]
    now := 2
    uuidGen := 1 }

/-- Environment with a configured embedding model that returns the vector
[1] for every chunk, reliable writes, and whole-text chunking. -/
def exEnv3 : Env :=
  { embeddingModel := some (fun ts => ts.map (fun _ => [1]))
    saveFails := false
    split_text := fun t => [t] }

/-- A source row with the given id and full_text. -/
def exSrc (i : Nat) (t : String) : SourceRec :=
  { id := some i, notebook_id := 1, title := none, full_text := some t,
    processing_status := some "completed" }

/-- Store with five sources of which number 3 has empty full_text and
therefore fails to vectorize. -/
def exDb5 : DB :=
  { sources := [exSrc 1 "alpha", exSrc 2 "beta", exSrc 3 "", exSrc 4 "gamma",
                exSrc 5 "delta"]
    notes := []
    insights := []
    source_embeddings := []
    episodes := []
    transformations := []
    nextId := 6 }

/-- A fresh (unsaved) note with content "hello". -/
def exNoteHello : NoteRec :=
  { id := none, notebook_id := 1, title := none, note_type := some "human",
    content := some "hello", embedding := none }

/-- Environment with no embedding model configured and reliable writes. -/
def exEnvNoModel : Env :=
  { embeddingModel := none, saveFails := false, split_text := fun t => [t] }

/-- An empty store. -/
def exDbEmpty : DB :=
  { sources := [], notes := [], insights := [], source_embeddings := []
    episodes := [], transformations := [], nextId := 1 }

/-- Store holding one source (id 9) whose full_text is the empty string. -/
def exDbSrcEmpty : DB :=
  { exDbEmpty with sources := [exSrc 9 ""] }

/-- Store holding one source (id 1) with text and no transformations. -/
def exDbOneSource : DB :=
  { exDbEmpty with sources := [exSrc 1 "hello text"] }

/-- A workflow graph stub that always fails (and is never reached in the
scenarios it is used in). -/
def exGraphFail : GraphFn :=
  fun _ _ _ _ db => (Except.error "graph failed", db)

/-- A workflow graph stub that returns the stored source unchanged. -/
def exGraphOk : GraphFn :=
  fun _ _ _ _ db => (Except.ok (exSrc 1 "hello text"), db)

/-- Environment whose underlying store writes always fail. -/
def exEnvSaveFails : Env :=
  { embeddingModel := none, saveFails := true, split_text := fun t => [t] }

/-! ## Theorems -/

/-- C10: `collect_items_for_rebuild` and `rebuild_embeddings_command` accept
the `mode` argument but never read it: for every fixed environment, include
flags and store, the run with mode "existing" equals the run with mode
"all" (indeed any two modes), items and result alike. -/
theorem rebuild_mode_never_read (env : Env) (m1 m2 : String)
    (incS incN incI : Bool) (db : DB) :
    collect_items_for_rebuild m1 incS incN incI db =
      collect_items_for_rebuild m2 incS incN incI db ∧
    rebuild_embeddings_command env m1 incS incN incI db =
      rebuild_embeddings_command env m2 incS incN incI db :=
  ⟨rfl, rfl⟩

/-- C1 counterexample: on a queue whose only job is COMPLETED (terminal),
`cancel_command_job` still reports success but does NOT leave the stored
status unchanged: the job's status is overwritten to "cancelled", so cancel
on an already-terminal job is not a no-op and a queue operation does
transition a job out of a terminal state. -/
theorem cancel_terminal_counterexample :
    exQueueCompleted.table.map JobRow.status = ["completed"] ∧
    (cancel_command_job 1 exQueueCompleted).1 = true ∧
    (cancel_command_job 1 exQueueCompleted).2.table.map JobRow.status = ["cancelled"] ∧
    "cancelled" ≠ "completed" := by
  refine ⟨rfl, rfl, rfl, ?_⟩
  decide

/-- C1 (amended): `cancel_command_job` always reports success and
unconditionally overwrites the matching job's status to CANCELLED with the
fixed non-null error message "Job cancelled by user" — on a PENDING job this
yields status CANCELLED with a non-null error_message as claimed, but on an
already-terminal COMPLETED or FAILED job it is not a no-op: the stored
status is overwritten to CANCELLED (only an already-CANCELLED job keeps its
status, making cancel idempotent merely on CANCELLED jobs).  Jobs with a
different id are untouched. -/
theorem cancel_always_sets_cancelled (s : QueueState) (job_id : Nat) :
    (cancel_command_job job_id s).1 = true ∧
    (∀ r ∈ (cancel_command_job job_id s).2.table, r.id = job_id →
      r.status = "cancelled" ∧ r.error_message = some "Job cancelled by user") ∧
    (∀ r ∈ s.table, r.id ≠ job_id → r ∈ (cancel_command_job job_id s).2.table) := by
  refine ⟨rfl, ?_, ?_⟩
  · intro r hr hid
    simp only [cancel_command_job, update_job_status, List.mem_map] at hr
    obtain ⟨a, _, rfl⟩ := hr
    by_cases h : a.id == job_id
    · simp only [h, if_true]
      exact ⟨rfl, rfl⟩
    · simp only [h, if_false] at hid ⊢
      exact absurd hid (by simpa using h)
  · intro r hr hid
    simp only [cancel_command_job, update_job_status, List.mem_map]
    refine ⟨r, hr, ?_⟩
    have : (r.id == job_id) = false := by simpa using hid
    simp [this]

/-- C1 witness: instantiating `cancel_always_sets_cancelled` on the
single-PENDING-job queue: cancel reports success and the stored job is
CANCELLED with the fixed non-null error message. -/
theorem cancel_always_sets_cancelled_witness :
    (cancel_command_job 1 exQueuePending).1 = true ∧
    exRowPendingCancelled.status = "cancelled" ∧
    exRowPendingCancelled.error_message = some "Job cancelled by user" := by
  have h := cancel_always_sets_cancelled exQueuePending 1
  have hmem : exRowPendingCancelled ∈ (cancel_command_job 1 exQueuePending).2.table := by
    decide
  have h2 := h.2.1 exRowPendingCancelled hmem (by decide)
  exact ⟨h.1, h2.1, h2.2⟩

/-- Membership is preserved by the descending insertion step. -/
theorem mem_insertByCreatedDesc {r x : JobRow} {l : List JobRow} :
    x ∈ insertByCreatedDesc r l ↔ x = r ∨ x ∈ l := by
  induction l with
  | nil => simp [insertByCreatedDesc]
  | cons a as ih =>
    by_cases h : r.created_at ≤ a.created_at
    · rw [insertByCreatedDesc, if_pos h]
      simp only [List.mem_cons, ih]
      tauto
    · rw [insertByCreatedDesc, if_neg h]
      simp only [List.mem_cons]

/-- Membership is preserved by the descending sort. -/
theorem mem_sortByCreatedDesc {x : JobRow} {l : List JobRow} :
    x ∈ sortByCreatedDesc l ↔ x ∈ l := by
  induction l with
  | nil => simp [sortByCreatedDesc]
  | cons a as ih =>
    rw [sortByCreatedDesc]
    simp only [mem_insertByCreatedDesc, List.mem_cons, ih]

/-- The descending insertion step preserves the sorted-descending invariant. -/
theorem pairwise_insertByCreatedDesc {r : JobRow} {l : List JobRow}
    (h : l.Pairwise (fun a b => b.created_at ≤ a.created_at)) :
    (insertByCreatedDesc r l).Pairwise (fun a b => b.created_at ≤ a.created_at) := by
  induction l with
  | nil => simp [insertByCreatedDesc]
  | cons a as ih =>
    rcases List.pairwise_cons.1 h with ⟨ha, has⟩
    by_cases hle : r.created_at ≤ a.created_at
    · rw [insertByCreatedDesc, if_pos hle]
      refine List.pairwise_cons.2 ⟨?_, ih has⟩
      intro b hb
      rcases mem_insertByCreatedDesc.1 hb with rfl | hb2
      · exact hle
      · exact ha b hb2
    · rw [insertByCreatedDesc, if_neg hle]
      refine List.pairwise_cons.2 ⟨?_, h⟩
      intro b hb
      have har : a.created_at ≤ r.created_at := Nat.le_of_not_le hle
      rcases List.mem_cons.1 hb with rfl | hb2
      · exact har
      · exact Nat.le_trans (ha b hb2) har

/-- The output of `sortByCreatedDesc` is sorted by created_at descending. -/
theorem pairwise_sortByCreatedDesc (l : List JobRow) :
    (sortByCreatedDesc l).Pairwise (fun a b => b.created_at ≤ a.created_at) := by
  induction l with
  | nil => simp [sortByCreatedDesc]
  | cons a as ih => exact pairwise_insertByCreatedDesc ih

/-- C9: every job returned by `list_jobs` with a (non-empty) app_name filter
"X" carries app_name = "X" (filters are conjunctive equality), the returned
list is ordered by created_at descending (most recent first), and a call
without an explicit limit returns at most 50 jobs. -/
theorem list_jobs_filter_sorted_limited (s : QueueState) (X : String)
    (hX : X ≠ "") (limit : Nat) :
    (∀ r ∈ list_jobs (some X) none none limit s, r.app_name = X) ∧
    (list_jobs (some X) none none limit s).Pairwise
      (fun a b => b.created_at ≤ a.created_at) ∧
    (list_jobs_default (some X) none none s).length ≤ 50 := by
  have hXb : (X == "") = false := beq_eq_false_iff_ne.2 hX
  refine ⟨?_, ?_, ?_⟩
  · intro r hr
    have hr2 : r ∈ sortByCreatedDesc
        (s.table.filter (matchesFilters (some X) none none)) :=
      List.take_subset _ _ hr
    have hr3 := mem_sortByCreatedDesc.1 hr2
    have hr4 := (List.mem_filter.1 hr3).2
    simp only [matchesFilters, hXb] at hr4
    simpa using hr4
  · exact List.Pairwise.sublist (List.take_sublist _ _) (pairwise_sortByCreatedDesc _)
  · exact Nat.le_trans (List.length_take_le _ _) (Nat.le_refl 50)

/-- C9 witness: on the three-job queue, instantiating
`list_jobs_filter_sorted_limited` with filter "x": the returned newest "x"
job indeed has app_name "x", and the default-limit call returns at most 50
jobs. -/
theorem list_jobs_filter_sorted_limited_witness :
    exRowB.app_name = "x" ∧
    (list_jobs_default (some "x") none none exQueueThree).length ≤ 50 := by
  have h := list_jobs_filter_sorted_limited exQueueThree "x" (by decide) 50
  refine ⟨h.1 exRowB ?_, h.2.2⟩
  decide

/-- Filtering an appended fresh row by its id returns exactly that row. -/
theorem filter_id_append {l : List JobRow} {row : JobRow} {i : Nat}
    (hrow : row.id = i) (h : ∀ r ∈ l, r.id ≠ i) :
    (l ++ [row]).filter (fun r => r.id == i) = [row] := by
  rw [List.filter_append]
  have h1 : l.filter (fun r => r.id == i) = [] := by
    rw [List.filter_eq_nil_iff]
    intro a ha
    simp [h a ha]
  rw [h1]
  simp [hrow]

/-- Filtering an id-preserving rewrite of an appended fresh row by its id
returns exactly the rewritten row. -/
theorem filter_id_map_append {l : List JobRow} {row : JobRow} {i : Nat}
    (f : JobRow → JobRow) (hf : ∀ r, (f r).id = r.id) (hrow : row.id = i)
    (h : ∀ r ∈ l, r.id ≠ i) :
    ((l ++ [row]).map f).filter (fun r => r.id == i) = [f row] := by
  rw [List.map_append, List.filter_append]
  have h1 : (l.map f).filter (fun r => r.id == i) = [] := by
    rw [List.filter_eq_nil_iff]
    intro a ha
    obtain ⟨b, hb, rfl⟩ := List.mem_map.1 ha
    simp [hf b, h b hb]
  rw [h1]
  simp [hf row, hrow]

/-- `get_job_status` on a state whose id-filtered table is a single PENDING
row without result. -/
theorem get_job_status_pending_of_filter {A : Type} (loads : String → Option A)
    (i : Nat) (s : QueueState) (row : JobRow)
    (hfilt : s.table.filter (fun r => r.id == i) = [row])
    (hstatus : row.status = "pending") (hres : row.result = none) :
    get_job_status loads i s =
      { status := JobStatus.pending, result := none,
        error_message := row.error_message, progress := row.progress } := by
  unfold get_job_status
  rw [hfilt]
  simp [parseJobStatus, hstatus, hres]

/-- `get_job_status` on a state whose id-filtered table is a single
COMPLETED row carrying a decodable result string. -/
theorem get_job_status_completed_of_filter {A : Type} (loads : String → Option A)
    (i : Nat) (s : QueueState) (row : JobRow) (str : String) (v : A)
    (hfilt : s.table.filter (fun r => r.id == i) = [row])
    (hstatus : row.status = "completed") (hres : row.result = some str)
    (hstr : str ≠ "") (hloads : loads str = some v) :
    get_job_status loads i s =
      { status := JobStatus.completed, result := some v,
        error_message := row.error_message, progress := row.progress } := by
  unfold get_job_status
  rw [hfilt]
  simp [parseJobStatus, hstatus, hres, hstr, hloads]

/-- C6: when the underlying insert succeeds, `submit_job` returns a job id
that is fresh (distinct from every id already in the table, given the
fresh-supply invariant of the uuid generator), and `get_job_status`
performed immediately afterwards returns status PENDING with progress 0 and
no result or error; when the underlying insert fails, `submit_job` re-raises
instead of silently dropping the job (and writes nothing, as the returned
error shows). -/
theorem submit_fresh_then_pending {A : Type} (dumps : A → String)
    (loads : String → Option A) (app cmd : String) (args : A) (s : QueueState)
    (hfresh : ∀ r ∈ s.table, r.id < s.uuidGen) :
    (∀ id s1, submit_job dumps true app cmd args s = Except.ok (id, s1) →
      (∀ r ∈ s.table, r.id ≠ id) ∧
      get_job_status loads id s1 =
        { status := JobStatus.pending, result := none, error_message := none,
          progress := 0 }) ∧
    submit_job dumps false app cmd args s = Except.error "Failed to submit job" := by
  constructor
  · intro id s1 h
    simp only [submit_job, if_true, Except.ok.injEq, Prod.mk.injEq] at h
    obtain ⟨hid, hs1⟩ := h
    subst hid
    subst hs1
    have hne : ∀ r ∈ s.table, r.id ≠ s.uuidGen :=
      fun r hr => Nat.ne_of_lt (hfresh r hr)
    refine ⟨hne, ?_⟩
    have hnil : s.table.filter (fun r => r.id == s.uuidGen) = [] := by
      rw [List.filter_eq_nil_iff]
      intro a ha
      simp [hne a ha]
    simp [get_job_status, hnil, parseJobStatus, JobStatus.value]
  · simp [submit_job]

/-- C6 witness: instantiating `submit_fresh_then_pending` on the empty
queue: `get_job_status` right after the successful submit reports PENDING
with progress 0. -/
theorem submit_fresh_then_pending_witness :
    get_job_status unaryLoads 0 exAfterSubmit =
      { status := JobStatus.pending, result := none, error_message := none,
        progress := 0 } := by
  have h := (submit_fresh_then_pending unaryDumps unaryLoads "app" "cmd" 7
    exEmptyQueue (by simp [exEmptyQueue])).1 0 exAfterSubmit rfl
  exact h.2

/-- C5: a successful `submit_job` followed by
`update_job_status id COMPLETED (result := R)` followed by `get_job_status
id` yields status COMPLETED and exactly the payload R: the update stores
`dumps R` and the read decodes it back, so the payload round-trips
byte-for-byte (the hypotheses state the json round-trip facts
`loads (dumps R) = some R` and `dumps R ≠ ""` for the payload stored). -/
theorem submit_update_get_roundtrip {A : Type} (dumps : A → String)
    (loads : String → Option A) (app cmd : String) (args : A) (R : A)
    (s : QueueState) (hfresh : ∀ r ∈ s.table, r.id < s.uuidGen)
    (hrt : loads (dumps R) = some R) (hne : dumps R ≠ "") :
    ∀ id s1, submit_job dumps true app cmd args s = Except.ok (id, s1) →
      (get_job_status loads id
        (update_job_status dumps id .completed (some R) none none s1)).status =
          JobStatus.completed ∧
      (get_job_status loads id
        (update_job_status dumps id .completed (some R) none none s1)).result =
          some R := by
  intro id s1 h
  simp only [submit_job, if_true, Except.ok.injEq, Prod.mk.injEq] at h
  obtain ⟨hid, hs1⟩ := h
  subst hid
  subst hs1
  have hne2 : ∀ r ∈ s.table, r.id ≠ s.uuidGen :=
    fun r hr => Nat.ne_of_lt (hfresh r hr)
  have hf : ∀ r : JobRow,
      ((fun r : JobRow => if r.id == s.uuidGen
          then applyUpdate dumps JobStatus.completed (some R) none none (s.now + 1) r
          else r) r).id = r.id := by
    intro r
    by_cases hrid : r.id == s.uuidGen
    · simp [hrid, applyUpdate]
    · simp [hrid]
  have htab := @filter_id_map_append s.table (submittedRow dumps app cmd args s)
      s.uuidGen
      (fun r => if r.id == s.uuidGen
          then applyUpdate dumps JobStatus.completed (some R) none none (s.now + 1) r
          else r) hf rfl hne2
  have hfrow : (fun r : JobRow => if r.id == s.uuidGen
          then applyUpdate dumps JobStatus.completed (some R) none none (s.now + 1) r
          else r) (submittedRow dumps app cmd args s) =
      completedRow dumps app cmd args R s := by
    simp [submittedRow, completedRow, applyUpdate, JobStatus.value]
  rw [hfrow] at htab
  have hkey := get_job_status_completed_of_filter loads s.uuidGen
      (update_job_status dumps s.uuidGen JobStatus.completed (some R) none none
        (submittedState dumps app cmd args s))
      (completedRow dumps app cmd args R s)
      (dumps R) R htab rfl rfl hne hrt
  exact ⟨congrArg JobResult.status hkey, congrArg JobResult.result hkey⟩

/-- C5 witness: instantiating `submit_update_get_roundtrip` on the empty
queue with the Nat payload 7 and the decimal string codec: after submit and
update-to-COMPLETED, `get_job_status` returns COMPLETED with result 7. -/
theorem submit_update_get_roundtrip_witness :
    (get_job_status unaryLoads 0 exAfterUpdate).status = JobStatus.completed ∧
    (get_job_status unaryLoads 0 exAfterUpdate).result = some 7 := by
  have h := submit_update_get_roundtrip unaryDumps unaryLoads "app" "cmd" 7 7
    exEmptyQueue (by simp [exEmptyQueue]) (by decide) (by decide)
    0 exAfterSubmit rfl
  exact h

/-- A per-item loop whose step settles exactly one item per iteration ends
with processed + failed increased by exactly the number of items. -/
theorem foldl_step_count (step : (Nat × Nat) × DB → Nat → (Nat × Nat) × DB)
    (hstep : ∀ acc x, (step acc x).1.1 + (step acc x).1.2 = acc.1.1 + acc.1.2 + 1)
    (ids : List Nat) (acc : (Nat × Nat) × DB) :
    (ids.foldl step acc).1.1 + (ids.foldl step acc).1.2 =
      acc.1.1 + acc.1.2 + ids.length := by
  induction ids generalizing acc with
  | nil => simp
  | cons x xs ih =>
    simp only [List.foldl_cons, List.length_cons]
    rw [ih (step acc x), hstep]
    omega

/-- Each source-loop iteration counts its item exactly once. -/
theorem rebuildSourceStep_adds (env : Env) (acc : (Nat × Nat) × DB) (x : Nat) :
    (rebuildSourceStep env acc x).1.1 + (rebuildSourceStep env acc x).1.2 =
      acc.1.1 + acc.1.2 + 1 := by
  unfold rebuildSourceStep
  split
  · show acc.1.1 + (acc.1.2 + 1) = acc.1.1 + acc.1.2 + 1
    omega
  · split
    · show acc.1.1 + 1 + acc.1.2 = acc.1.1 + acc.1.2 + 1
      omega
    · show acc.1.1 + (acc.1.2 + 1) = acc.1.1 + acc.1.2 + 1
      omega

/-- Each note-loop iteration counts its item exactly once. -/
theorem rebuildNoteStep_adds (env : Env) (acc : (Nat × Nat) × DB) (x : Nat) :
    (rebuildNoteStep env acc x).1.1 + (rebuildNoteStep env acc x).1.2 =
      acc.1.1 + acc.1.2 + 1 := by
  unfold rebuildNoteStep
  split
  · show acc.1.1 + (acc.1.2 + 1) = acc.1.1 + acc.1.2 + 1
    omega
  · split
    · show acc.1.1 + 1 + acc.1.2 = acc.1.1 + acc.1.2 + 1
      omega
    · show acc.1.1 + (acc.1.2 + 1) = acc.1.1 + acc.1.2 + 1
      omega

/-- Each insight-loop iteration counts its item exactly once. -/
theorem rebuildInsightStep_adds (env : Env) (acc : (Nat × Nat) × DB) (x : Nat) :
    (rebuildInsightStep env acc x).1.1 + (rebuildInsightStep env acc x).1.2 =
      acc.1.1 + acc.1.2 + 1 := by
  unfold rebuildInsightStep
  split
  · show acc.1.1 + (acc.1.2 + 1) = acc.1.1 + acc.1.2 + 1
    omega
  · split
    · show acc.1.1 + 1 + acc.1.2 = acc.1.1 + acc.1.2 + 1
      omega
    · show acc.1.1 + (acc.1.2 + 1) = acc.1.1 + acc.1.2 + 1
      omega

/-- C3: whenever an embedding model is configured, `rebuild_embeddings_command`
succeeds overall (success = true) no matter how many individual items fail,
and every collected item is counted exactly once as processed or failed:
total_items = processed_items + failed_items (hence total_items ≥
processed_items + failed_items, with failed_items exactly the number of
failing items since each failing iteration increments failed once and no
failure aborts the batch). -/
theorem rebuild_counts_each_item_once (env : Env) (mode : String)
    (incS incN incI : Bool) (db : DB)
    (hm : env.embeddingModel.isSome = true) :
    (rebuild_embeddings_command env mode incS incN incI db).1.success = true ∧
    (rebuild_embeddings_command env mode incS incN incI db).1.total_items =
      (rebuild_embeddings_command env mode incS incN incI db).1.processed_items +
      (rebuild_embeddings_command env mode incS incN incI db).1.failed_items := by
  rcases hme : env.embeddingModel with _ | m
  · rw [hme] at hm
    simp at hm
  · simp only [rebuild_embeddings_command, hme]
    split
    · exact ⟨rfl, rfl⟩
    · refine ⟨rfl, ?_⟩
      have h1 := foldl_step_count (rebuildSourceStep env) (rebuildSourceStep_adds env)
        (collect_items_for_rebuild mode incS incN incI db).sources ((0, 0), db)
      have h2 := foldl_step_count (rebuildNoteStep env) (rebuildNoteStep_adds env)
        (collect_items_for_rebuild mode incS incN incI db).notes
        ((collect_items_for_rebuild mode incS incN incI db).sources.foldl
          (rebuildSourceStep env) ((0, 0), db))
      have h3 := foldl_step_count (rebuildInsightStep env) (rebuildInsightStep_adds env)
        (collect_items_for_rebuild mode incS incN incI db).insights
        ((collect_items_for_rebuild mode incS incN incI db).notes.foldl
          (rebuildNoteStep env)
          ((collect_items_for_rebuild mode incS incN incI db).sources.foldl
            (rebuildSourceStep env) ((0, 0), db)))
      simp only [] at h1 h2 h3 ⊢
      omega

/-- C3 witness: instantiating `rebuild_counts_each_item_once` on a store of
five sources of which exactly one (empty full_text) fails: the run succeeds
with total_items 5, processed_items 4, failed_items 1. -/
theorem rebuild_counts_each_item_once_witness :
    (rebuild_embeddings_command exEnv3 "existing" true true true exDb5).1.success = true ∧
    (rebuild_embeddings_command exEnv3 "existing" true true true exDb5).1 =
      { success := true, total_items := 5, processed_items := 4, failed_items := 1,
        processing_time := 0, error_message := none } := by
  refine ⟨(rebuild_counts_each_item_once exEnv3 "existing" true true true exDb5 rfl).1, ?_⟩
  rfl

/-- C7: for a Note with non-empty content c, `needs_embedding` is true and
`get_embedding_content` returns c; saving it when an embedding model is
configured attaches the vector the model computed for c to the persisted
row (non-empty whenever the model returns a non-empty vector), and saving
it when no model is configured completes without raising and persists the
row without any vector (warning only). -/
theorem note_save_embedding_hook (env : Env) (n : NoteRec) (c : String) (db : DB)
    (hc : n.content = some c) (hcne : (c == "") = false)
    (htrim : (pyStrip c == "") = false) (hid : n.id = none)
    (hsv : env.saveFails = false) :
    note_needs_embedding n = true ∧
    note_get_embedding_content n = some c ∧
    (∀ m v rest, env.embeddingModel = some m → m [c] = v :: rest →
      note_save env n db =
        (Except.ok { n with id := some db.nextId, embedding := some v },
         { db with
           notes := db.notes ++ [{ n with id := some db.nextId, embedding := some v }]
           nextId := db.nextId + 1 })) ∧
    (env.embeddingModel = none →
      note_save env n db =
        (Except.ok { n with id := some db.nextId, embedding := none },
         { db with
           notes := db.notes ++ [{ n with id := some db.nextId, embedding := none }]
           nextId := db.nextId + 1 })) := by
  refine ⟨rfl, by rw [note_get_embedding_content, hc], ?_, ?_⟩
  · intro m v rest hm hme
    simp [note_save, noteContentInvalid, note_needs_embedding,
      note_get_embedding_content, hc, htrim, hcne, hid, hsv, hm, hme]
  · intro hm
    simp [note_save, noteContentInvalid, note_needs_embedding,
      note_get_embedding_content, hc, htrim, hcne, hid, hsv, hm]

/-- C7 witness: instantiating `note_save_embedding_hook` on a fresh note
with content "hello": with the configured model the persisted row carries
the non-empty vector [1]; with no model the save succeeds and the row
carries no vector. -/
theorem note_save_embedding_hook_witness :
    note_needs_embedding exNoteHello = true ∧
    note_get_embedding_content exNoteHello = some "hello" ∧
    note_save exEnv3 exNoteHello exDbEmpty =
      (Except.ok { exNoteHello with id := some 1, embedding := some [1] },
       { exDbEmpty with
         notes := [{ exNoteHello with id := some 1, embedding := some [1] }]
         nextId := 2 }) ∧
    note_save exEnvNoModel exNoteHello exDbEmpty =
      (Except.ok { exNoteHello with id := some 1, embedding := none },
       { exDbEmpty with
         notes := [{ exNoteHello with id := some 1, embedding := none }]
         nextId := 2 }) := by
  have h := note_save_embedding_hook exEnv3 exNoteHello "hello" exDbEmpty
    rfl rfl (by decide) rfl rfl
  have h2 := note_save_embedding_hook exEnvNoModel exNoteHello "hello" exDbEmpty
    rfl rfl (by decide) rfl rfl
  exact ⟨h.1, h.2.1,
    h.2.2.1 (fun ts => ts.map (fun _ => [1])) [1] [] rfl rfl,
    h2.2.2.2 rfl⟩

/-- `updateSourceRow` keeps the row id. -/
theorem updateSourceRow_id (old n : SourceRec) :
    (updateSourceRow old n).id = old.id := rfl

/-- `find?` by id commutes with an id-preserving rewrite of the table. -/
theorem find?_id_map (l : List SourceRec) (k : Option Nat)
    (g : SourceRec → SourceRec) (hg : ∀ r, (g r).id = r.id) :
    (l.map g).find? (fun r => r.id == k) = (l.find? (fun r => r.id == k)).map g := by
  induction l with
  | nil => rfl
  | cons a as ih =>
    simp only [List.map_cons]
    by_cases h : (a.id == k) = true
    · simp [List.find?, h, hg a]
    · simp [List.find?, h, hg a, ih]

/-- `source_save` on an existing row (update branch) rewrites exactly the
matching rows and returns the merged row. -/
theorem source_save_update (env : Env) (s : SourceRec) (db : DB) (i : Nat)
    (old : SourceRec) (hsv : env.saveFails = false) (hid : s.id = some i)
    (hfind : db.sources.find? (fun r => r.id == some i) = some old) :
    source_save env s db =
      (Except.ok (updateSourceRow old s),
       { db with sources :=
           db.sources.map (fun r => if r.id == some i then updateSourceRow r s else r) }) := by
  simp [source_save, hsv, hid, hfind]

/-- C8: `vectorize` on a Source whose stored full_text is empty or absent
raises a descriptive DatabaseOperationError to the caller, creates no
source_embedding rows, and leaves the source's row with
processing_status = "failed". -/
theorem vectorize_empty_text_fails (env : Env) (src : SourceRec) (db : DB)
    (i : Nat) (hsv : env.saveFails = false) (hid : src.id = some i)
    (hrow : db.sources.find? (fun r => r.id == some i) = some src)
    (hempty : src.full_text = none ∨ src.full_text = some "") :
    (source_vectorize env src db).1 =
      Except.error ("DatabaseOperationError: " ++
        "ValueError: Source has no text to vectorize") ∧
    (source_vectorize env src db).2.source_embeddings = db.source_embeddings ∧
    (∃ r ∈ (source_vectorize env src db).2.sources, r.id = some i) ∧
    (∀ r ∈ (source_vectorize env src db).2.sources, r.id = some i →
      r.processing_status = some "failed") := by
  have hsave1 := source_save_update env
    { src with processing_status := some "in_progress" } db i src hsv hid hrow
  have hg1 : ∀ r : SourceRec, ((fun r : SourceRec =>
      if r.id == some i
        then updateSourceRow r { src with processing_status := some "in_progress" }
        else r) r).id = r.id := by
    intro r
    by_cases h : (r.id == some i) = true
    · simp [h, updateSourceRow_id]
    · simp [h]
  have htruthy : optStrTruthy
      (updateSourceRow src { src with processing_status := some "in_progress" }).full_text
        = false := by
    rcases hempty with h | h <;> simp [updateSourceRow, optStrTruthy, h]
  have hfind1 : (db.sources.map (fun r : SourceRec =>
      if r.id == some i
        then updateSourceRow r { src with processing_status := some "in_progress" }
        else r)).find? (fun r => r.id == some i) =
      some ((fun r : SourceRec =>
        if r.id == some i
          then updateSourceRow r { src with processing_status := some "in_progress" }
          else r) src) := by
    rw [find?_id_map _ _ _ hg1, hrow]
    rfl
  have hsave2 := source_save_update env
    { updateSourceRow src { src with processing_status := some "in_progress" } with
      processing_status := some "failed" }
    { db with sources := db.sources.map (fun r : SourceRec =>
        if r.id == some i
          then updateSourceRow r { src with processing_status := some "in_progress" }
          else r) }
    i
    ((fun r : SourceRec =>
        if r.id == some i
          then updateSourceRow r { src with processing_status := some "in_progress" }
          else r) src)
    hsv hid hfind1
  rcases hveq : source_vectorize env src db with ⟨res, db2⟩
  unfold source_vectorize at hveq
  rw [hsave1] at hveq
  simp only [htruthy, Bool.false_eq_true, if_false] at hveq
  rw [hsave2] at hveq
  simp only [Prod.mk.injEq] at hveq
  obtain ⟨hres, hdb2⟩ := hveq
  subst hres
  subst hdb2
  refine ⟨rfl, rfl, ?_, ?_⟩
  · refine ⟨(fun r : SourceRec =>
      if r.id == some i
        then updateSourceRow r { updateSourceRow src { src with processing_status := some "in_progress" } with processing_status := some "failed" }
        else r) ((fun r : SourceRec =>
      if r.id == some i
        then updateSourceRow r { src with processing_status := some "in_progress" }
        else r) src), ?_, ?_⟩
    · exact List.mem_map_of_mem _ (List.mem_map_of_mem _ (List.mem_of_find?_eq_some hrow))
    · have h1 : (src.id == some i) = true := by simp [hid]
      simp [h1, updateSourceRow_id, hid]
  · intro r hr hrid
    simp only [List.mem_map] at hr
    obtain ⟨b, hb, rfl⟩ := hr
    obtain ⟨a, ha, rfl⟩ := hb
    by_cases haid : a.id = some i
    · simp [haid, updateSourceRow_id, updateSourceRow]
    · simp [haid, updateSourceRow_id] at hrid

/-- C8 witness: instantiating `vectorize_empty_text_fails` on the stored
source with empty full_text: vectorize raises the descriptive error and no
source_embedding rows exist afterwards. -/
theorem vectorize_empty_text_fails_witness :
    (source_vectorize exEnvNoModel (exSrc 9 "") exDbSrcEmpty).1 =
      Except.error ("DatabaseOperationError: " ++
        "ValueError: Source has no text to vectorize") ∧
    (source_vectorize exEnvNoModel (exSrc 9 "") exDbSrcEmpty).2.source_embeddings = [] := by
  have h := vectorize_empty_text_fails exEnvNoModel (exSrc 9 "") exDbSrcEmpty 9
    rfl rfl (by decide) (Or.inr rfl)
  exact ⟨h.1, h.2.1⟩

/-- If some id in the list has no transformation row, the resolution loop
of `process_source_command` raises. -/
theorem resolveTransformations_error_of_missing {db : DB} {ts : List Nat}
    {t : Nat} (hts : t ∈ ts) (hmiss : ¬ db.transformations.contains t = true) :
    ∃ e, resolveTransformations db ts = Except.error e := by
  induction ts with
  | nil => cases hts
  | cons a as ih =>
    unfold resolveTransformations
    cases hga : transformation_get a db with
    | error e => exact ⟨e, rfl⟩
    | ok _ =>
      rcases List.mem_cons.1 hts with rfl | hmem
      · exfalso
        unfold transformation_get at hga
        by_cases h0 : (t == 0) = true
        · simp [h0] at hga
        · simp only [h0, Bool.false_eq_true, if_false] at hga
          by_cases hc : db.transformations.contains t = true
          · exact hmiss hc
          · rw [if_neg hc] at hga
            exact Except.noConfusion hga
      · obtain ⟨e, he⟩ := ih hmem
        exact ⟨e, he⟩

/-- C4: `process_source` invoked with a transformation id that does not
resolve aborts the whole run — the workflow graph is never invoked (the
result is identical for any two graphs), the handler returns a payload with
success = false and a non-null error_message instead of raising, and the
source's stored processing_status is "failed" (not "in_progress"). -/
theorem process_source_missing_transformation (env : Env) (g1 g2 : GraphFn)
    (sid : Nat) (cs : String) (nbs : List Nat) (ts : List Nat) (embed : Bool)
    (db : DB) (src : SourceRec) (t : Nat)
    (hsv : env.saveFails = false) (hid : src.id = some sid)
    (hsid : (sid == 0) = false)
    (hrow : db.sources.find? (fun r => r.id == some sid) = some src)
    (hts : t ∈ ts) (hmiss : ¬ db.transformations.contains t = true) :
    (process_source_command env g1 sid cs nbs ts embed db =
      process_source_command env g2 sid cs nbs ts embed db) ∧
    (process_source_command env g1 sid cs nbs ts embed db).1.isOk = true ∧
    (∀ r, (process_source_command env g1 sid cs nbs ts embed db).1 = Except.ok r →
      r.success = false ∧ r.error_message.isSome = true) ∧
    (∃ r ∈ (process_source_command env g1 sid cs nbs ts embed db).2.sources,
      r.id = some sid) ∧
    (∀ r ∈ (process_source_command env g1 sid cs nbs ts embed db).2.sources,
      r.id = some sid → r.processing_status = some "failed") := by
  have hget : source_get sid db = Except.ok src := by
    simp [source_get, hsid, hrow]
  have hsave1 := source_save_update env
    { src with processing_status := some "in_progress" } db sid src hsv hid hrow
  have hg1 : ∀ r : SourceRec, ((fun r : SourceRec =>
      if r.id == some sid
        then updateSourceRow r { src with processing_status := some "in_progress" }
        else r) r).id = r.id := by
    intro r
    by_cases h : (r.id == some sid) = true
    · simp [h, updateSourceRow_id]
    · simp [h]
  obtain ⟨e, he⟩ := @resolveTransformations_error_of_missing
    { db with sources := db.sources.map (fun r : SourceRec =>
        if r.id == some sid
          then updateSourceRow r { src with processing_status := some "in_progress" }
          else r) }
    ts t hts hmiss
  have hfind1 : (db.sources.map (fun r : SourceRec =>
      if r.id == some sid
        then updateSourceRow r { src with processing_status := some "in_progress" }
        else r)).find? (fun r => r.id == some sid) =
      some ((fun r : SourceRec =>
        if r.id == some sid
          then updateSourceRow r { src with processing_status := some "in_progress" }
          else r) src) := by
    rw [find?_id_map _ _ _ hg1, hrow]
    rfl
  have hsave2 := source_save_update env
    { updateSourceRow src { src with processing_status := some "in_progress" } with
      processing_status := some "failed" }
    { db with sources := db.sources.map (fun r : SourceRec =>
        if r.id == some sid
          then updateSourceRow r { src with processing_status := some "in_progress" }
          else r) }
    sid
    ((fun r : SourceRec =>
        if r.id == some sid
          then updateSourceRow r { src with processing_status := some "in_progress" }
          else r) src)
    hsv hid hfind1
  refine ⟨?_, ?_, ?_, ?_, ?_⟩
  · simp only [process_source_command, hget, hsave1, he, processSourceFail, hsave2]
  · simp only [process_source_command, hget, hsave1, he, processSourceFail, hsave2]
    rfl
  · intro r hr
    simp only [process_source_command, hget, hsave1, he, processSourceFail, hsave2,
      Except.ok.injEq] at hr
    subst hr
    exact ⟨rfl, rfl⟩
  · simp only [process_source_command, hget, hsave1, he, processSourceFail, hsave2]
    refine ⟨(fun r : SourceRec =>
      if r.id == some sid
        then updateSourceRow r { updateSourceRow src { src with processing_status := some "in_progress" } with processing_status := some "failed" }
        else r) ((fun r : SourceRec =>
      if r.id == some sid
        then updateSourceRow r { src with processing_status := some "in_progress" }
        else r) src), ?_, ?_⟩
    · exact List.mem_map_of_mem _ (List.mem_map_of_mem _ (List.mem_of_find?_eq_some hrow))
    · have h1 : (src.id == some sid) = true := by simp [hid]
      simp [h1, updateSourceRow_id, hid]
  · simp only [process_source_command, hget, hsave1, he, processSourceFail, hsave2]
    intro r hr hrid
    simp only [List.mem_map] at hr
    obtain ⟨b, hb, rfl⟩ := hr
    obtain ⟨a, ha, rfl⟩ := hb
    by_cases haid : a.id = some sid
    · simp [haid, updateSourceRow_id, updateSourceRow]
    · simp [haid, updateSourceRow_id] at hrid

/-- C4 witness: instantiating `process_source_missing_transformation` on a
store with one source and no transformation rows, asking for transformation
42: the run is identical under two different graphs (the graph never runs)
and the handler returns a payload rather than raising. -/
theorem process_source_missing_transformation_witness :
    (process_source_command exEnvNoModel exGraphFail 1 "cs" [] [42] false exDbOneSource =
      process_source_command exEnvNoModel exGraphOk 1 "cs" [] [42] false exDbOneSource) ∧
    (process_source_command exEnvNoModel exGraphFail 1 "cs" [] [42] false exDbOneSource).1.isOk = true := by
  have h := process_source_missing_transformation exEnvNoModel exGraphFail exGraphOk
    1 "cs" [] [42] false exDbOneSource (exSrc 1 "hello text") 42
    rfl rfl rfl (by decide) (by decide) (by decide)
  exact ⟨h.1, h.2.1⟩

/-- With reliable writes, `source_save` never raises. -/
theorem source_save_fst_isOk (env : Env) (hsv : env.saveFails = false)
    (s : SourceRec) (db : DB) : (source_save env s db).1.isOk = true := by
  unfold source_save
  rw [hsv]
  simp only [Bool.false_eq_true, if_false]
  split
  · rfl
  · split <;> rfl

/-- With reliable writes, `episode_save` never raises. -/
theorem episode_save_fst_isOk (env : Env) (hsv : env.saveFails = false)
    (ep : EpisodeRec) (db : DB) : (episode_save env ep db).1.isOk = true := by
  unfold episode_save
  rw [hsv]
  simp only [Bool.false_eq_true, if_false]
  split <;> rfl

/-- With reliable writes, the except branch of `process_source_command`
returns the structured failure payload instead of raising. -/
theorem processSourceFail_isOk (env : Env) (hsv : env.saveFails = false)
    (s : SourceRec) (sid : Nat) (e : String) (db : DB) :
    (processSourceFail env s sid e db).1.isOk = true := by
  unfold processSourceFail
  rcases hss : source_save env { s with processing_status := some "failed" } db
    with ⟨res, db1⟩
  have hok := source_save_fst_isOk env hsv { s with processing_status := some "failed" } db
  rw [hss] at hok
  cases res with
  | error e2 =>
    simp [Except.isOk, Except.toBool] at hok
  | ok v => rfl

/-- Whenever the except branch of `process_source_command` returns a payload,
that payload carries a non-null error_message (and success = false). -/
theorem processSourceFail_payload (env : Env) (s : SourceRec) (sid : Nat)
    (e : String) (db : DB) :
    ∀ r, (processSourceFail env s sid e db).1 = Except.ok r →
      r.success = false ∧ r.error_message.isSome = true := by
  unfold processSourceFail
  rcases hss : source_save env { s with processing_status := some "failed" } db
    with ⟨res, db1⟩
  cases res with
  | error e2 =>
    intro r hr
    exact Except.noConfusion hr
  | ok v =>
    intro r hr
    simp only [Except.ok.injEq] at hr
    subst hr
    exact ⟨rfl, rfl⟩

/-- With reliable writes, the except branch of `generate_podcast_command`
returns the structured failure payload instead of raising. -/
theorem podcastFail_isOk (env : Env) (hsv : env.saveFails = false)
    (ep : Option EpisodeRec) (e : String) (db : DB) :
    (podcastFail env ep e db).1.isOk = true := by
  unfold podcastFail
  cases ep with
  | none => rfl
  | some epi =>
    simp only []
    rcases hss : episode_save env { epi with status := "failed" } db with ⟨res, db1⟩
    have hok := episode_save_fst_isOk env hsv { epi with status := "failed" } db
    rw [hss] at hok
    cases res with
    | error e2 =>
      simp [Except.isOk, Except.toBool] at hok
    | ok v => rfl

/-- Whenever the except branch of `generate_podcast_command` returns a
payload, that payload carries a non-null error_message (and success =
false). -/
theorem podcastFail_payload (env : Env) (ep : Option EpisodeRec) (e : String)
    (db : DB) :
    ∀ r, (podcastFail env ep e db).1 = Except.ok r →
      r.success = false ∧ r.error_message.isSome = true := by
  unfold podcastFail
  cases ep with
  | none =>
    intro r hr
    simp only [Except.ok.injEq] at hr
    subst hr
    exact ⟨rfl, rfl⟩
  | some epi =>
    simp only []
    rcases hss : episode_save env { epi with status := "failed" } db with ⟨res, db1⟩
    cases res with
    | error e2 =>
      intro r hr
      exact Except.noConfusion hr
    | ok v =>
      intro r hr
      simp only [Except.ok.injEq] at hr
      subst hr
      exact ⟨rfl, rfl⟩

/-- With reliable writes, `process_source_command` never raises. -/
theorem process_source_isOk (env : Env) (hsv : env.saveFails = false)
    (g : GraphFn) (sid : Nat) (cs : String) (nbs : List Nat) (ts : List Nat)
    (embed : Bool) (db : DB) :
    (process_source_command env g sid cs nbs ts embed db).1.isOk = true := by
  unfold process_source_command
  split
  · rfl
  · split
    · exact processSourceFail_isOk env hsv _ _ _ _
    · split
      · exact processSourceFail_isOk env hsv _ _ _ _
      · split
        · exact processSourceFail_isOk env hsv _ _ _ _
        · split
          · exact processSourceFail_isOk env hsv _ _ _ _
          · rfl

/-- Every payload `process_source_command` returns with success = false
carries a non-null error_message. -/
theorem process_source_payload (env : Env) (g : GraphFn) (sid : Nat)
    (cs : String) (nbs : List Nat) (ts : List Nat) (embed : Bool) (db : DB) :
    ∀ r, (process_source_command env g sid cs nbs ts embed db).1 = Except.ok r →
      r.success = false → r.error_message.isSome = true := by
  unfold process_source_command
  split
  · intro r hr _
    simp only [Except.ok.injEq] at hr
    subst hr
    rfl
  · split
    · intro r hr _
      exact (processSourceFail_payload env _ _ _ _ r hr).2
    · split
      · intro r hr _
        exact (processSourceFail_payload env _ _ _ _ r hr).2
      · split
        · intro r hr _
          exact (processSourceFail_payload env _ _ _ _ r hr).2
        · split
          · intro r hr _
            exact (processSourceFail_payload env _ _ _ _ r hr).2
          · intro r hr hs
            simp only [Except.ok.injEq] at hr
            subst hr
            simp at hs

/-- With reliable writes, `generate_podcast_command` never raises. -/
theorem generate_podcast_isOk (env : Env) (hsv : env.saveFails = false)
    (pf : PodcastFn) (profiles : List EpisodeProfileRec) (speakers : List String)
    (pn en c : String) (bs : Option String) (db : DB) :
    (generate_podcast_command env pf profiles speakers pn en c bs db).1.isOk = true := by
  unfold generate_podcast_command
  cases bs <;>
    repeat' first
      | rfl
      | exact podcastFail_isOk env hsv _ _ _
      | contradiction
      | split
      | simp only []

/-- Every payload `generate_podcast_command` returns with success = false
carries a non-null error_message. -/
theorem generate_podcast_payload (env : Env) (pf : PodcastFn)
    (profiles : List EpisodeProfileRec) (speakers : List String)
    (pn en c : String) (bs : Option String) (db : DB) :
    ∀ r, (generate_podcast_command env pf profiles speakers pn en c bs db).1 = Except.ok r →
      r.success = false → r.error_message.isSome = true := by
  unfold generate_podcast_command
  cases bs <;>
    repeat' first
      | (intro r hr hs
         exact (podcastFail_payload env _ _ _ r hr).2)
      | (intro r hr hs
         simp only [Except.ok.injEq] at hr
         subst hr
         simp at hs)
      | contradiction
      | split
      | simp only []

/-- `embed_single_item_command` always returns a payload, and a failure
payload carries a non-null error_message. -/
theorem embed_single_payload (env : Env) (it : String) (iid : Nat) (db : DB) :
    (embed_single_item_command env it iid db).1.success = false →
      (embed_single_item_command env it iid db).1.error_message.isSome = true := by
  unfold embed_single_item_command
  repeat' first
    | (intro h
       exact absurd h (by decide))
    | (intro h
       rfl)
    | contradiction
    | split
    | simp only []

/-- `rebuild_embeddings_command` always returns a payload, and a failure
payload carries a non-null error_message. -/
theorem rebuild_payload (env : Env) (mode : String) (iS iN iI : Bool) (db : DB) :
    (rebuild_embeddings_command env mode iS iN iI db).1.success = false →
      (rebuild_embeddings_command env mode iS iN iI db).1.error_message.isSome = true := by
  unfold rebuild_embeddings_command
  repeat' first
    | (intro h
       exact absurd h (by decide))
    | (intro h
       rfl)
    | contradiction
    | split
    | simp only []

/-- C2 counterexample: when persisting the failed status itself fails, the
handler DOES propagate an exception to its caller: with a store whose writes
fail, `process_source_command` on an existing source returns a raised
DatabaseOperationError instead of a structured payload, falsifying "a
command handler never propagates the exception to its caller". -/
theorem process_source_propagates_counterexample :
    (process_source_command exEnvSaveFails exGraphFail 1 "cs" [] [] false exDbOneSource).1 =
      Except.error "DatabaseOperationError: write failed" := by
  rfl

/-- C2 (amended): command handlers catch exceptions arising during the work
and return a structured payload (success = false with a non-null
error_message and a processing_time field) rather than raising:
`embed_single_item_command` and `rebuild_embeddings_command` never raise at
all, while `process_source_command` and `generate_podcast_command` never
raise provided persisting the failed status on the target entity/episode
itself succeeds — if that failure-path save raises, the exception does
propagate (see the counterexample). -/
theorem handlers_catch_and_report (env : Env) (hsv : env.saveFails = false) :
    (∀ it iid db, (embed_single_item_command env it iid db).1.success = false →
      (embed_single_item_command env it iid db).1.error_message.isSome = true) ∧
    (∀ mode iS iN iI db,
      (rebuild_embeddings_command env mode iS iN iI db).1.success = false →
      (rebuild_embeddings_command env mode iS iN iI db).1.error_message.isSome = true) ∧
    (∀ g sid cs nbs ts embed db,
      (process_source_command env g sid cs nbs ts embed db).1.isOk = true ∧
      ∀ r, (process_source_command env g sid cs nbs ts embed db).1 = Except.ok r →
        r.success = false → r.error_message.isSome = true) ∧
    (∀ pf profiles speakers pn en c bs db,
      (generate_podcast_command env pf profiles speakers pn en c bs db).1.isOk = true ∧
      ∀ r, (generate_podcast_command env pf profiles speakers pn en c bs db).1 = Except.ok r →
        r.success = false → r.error_message.isSome = true) :=
  ⟨fun it iid db => embed_single_payload env it iid db,
   fun mode iS iN iI db => rebuild_payload env mode iS iN iI db,
   fun g sid cs nbs ts embed db =>
     ⟨process_source_isOk env hsv g sid cs nbs ts embed db,
      process_source_payload env g sid cs nbs ts embed db⟩,
   fun pf profiles speakers pn en c bs db =>
     ⟨generate_podcast_isOk env hsv pf profiles speakers pn en c bs db,
      generate_podcast_payload env pf profiles speakers pn en c bs db⟩⟩

/-- C2 witness: instantiating `handlers_catch_and_report` with reliable
writes: `process_source_command` on a store with one source returns a
payload (isOk), and `embed_single_item_command` on an unknown item type
reports the failure in its payload. -/
theorem handlers_catch_and_report_witness :
    (process_source_command exEnvNoModel exGraphFail 1 "cs" [] [] false exDbOneSource).1.isOk = true ∧
    (embed_single_item_command exEnvNoModel "bogus" 7 exDbEmpty).1.error_message.isSome = true := by
  have h := handlers_catch_and_report exEnvNoModel rfl
  exact ⟨(h.2.2.1 exGraphFail 1 "cs" [] [] false exDbOneSource).1,
    h.1 "bogus" 7 exDbEmpty rfl⟩

end ON
